import Mathlib

/-!
Verification of the background-job-scheduler domain core
(`src/background_job_scheduler/domain`): the `Job` and `JobExecution`
entities and the `JobDomainService` business logic, shallowly embedded as
pure Lean functions.  Timestamps are modelled as abstract `Nat` ticks
(minutes for the cron calculator, seconds for retry arithmetic); Python's
implicit `datetime.utcnow()` defaults become explicit `now` parameters, and
mutation of entities becomes explicit state passing.  UUIDs are modelled as
plain `Nat` values (they are inert identity data).
-/

/-- `JobStatus` enumeration from `domain/entities/job.py`. -/
inductive JobStatus where
  | active
  | inactive
  | paused
  | deleted
deriving DecidableEq, Repr

/-- `ExecutionStatus` enumeration from `domain/entities/execution.py`. -/
inductive ExecutionStatus where
  | pending
  | running
  | success
  | failed
  | timeout
  | cancelled
  | retrying
deriving DecidableEq, Repr

/-- The `Job` dataclass from `domain/entities/job.py`.  The open-valued
`environment_variables` mapping is modelled as an association list. -/
structure Job where
  name : String
  cron_expression : String
  command : String
  description : String
  status : JobStatus
  created_at : Nat
  updated_at : Nat
  last_run : Option Nat
  next_run : Option Nat
  timeout_seconds : Int
  max_retries : Int
  retry_delay_seconds : Int
  environment_variables : List (String × String)
  tags : List String
  id : Option Int
  uuid : Nat
deriving DecidableEq, Repr

/-- The `JobExecution` dataclass from `domain/entities/execution.py`
(the `Any`-valued `execution_metadata` map carries no logic touched by the
domain service and is not modelled). -/
structure JobExecution where
  job_id : Option Int
  job_uuid : Nat
  status : ExecutionStatus
  scheduled_time : Nat
  started_at : Option Nat
  finished_at : Option Nat
  exit_code : Option Int
  stdout : String
  stderr : String
  error_message : String
  retry_count : Nat
  environment_variables : List (String × String)
  id : Option Int
  uuid : Nat
deriving DecidableEq, Repr

/-!
## Cron calculator

Modelled from the spec: the `croniter` library used by
`Job.validate_cron_expression` and `Job.calculate_next_run` is an external
dependency (not part of this repository), so the spec's `CronCalculator`
contract (§4.1) is modelled here: a standard 5-field cron expression
(minute, hour, day-of-month, month, day-of-week, each field a comma list of
`*`, values, ranges, with optional `/step`), evaluated over a simplified
non-leap calendar at minute granularity, returning the next matching
minute-aligned time strictly after the base time.
-/

/-- One parsed term of a cron field: inclusive low / high bounds plus step. -/
structure CronTerm where
  lo : Nat
  hi : Nat
  step : Nat
deriving DecidableEq, Repr

/-- One parsed cron field: its terms, plus whether the raw token was `*`
(needed for the standard day-of-month / day-of-week disjunction rule). -/
structure CronField where
  star : Bool
  terms : List CronTerm
deriving DecidableEq, Repr

/-- Split a character list on a separator character (semantics of Python's
`str.split(sep)` for a one-character separator). -/
def splitOnChar (sep : Char) : List Char → List (List Char)
  | [] => [[]]
  | c :: rest =>
    let r := splitOnChar sep rest
    if c = sep then [] :: r
    else
      match r with
      | [] => [[c]]
      | h :: t => (c :: h) :: t

/-- Parse a non-empty all-digit character list as a decimal number. -/
def parseNatChars (cs : List Char) : Option Nat :=
  if cs = [] then none
  else if cs.all Char.isDigit then
    some (cs.foldl (fun acc c => acc * 10 + (c.toNat - 48)) 0)
  else none

/-- Parse the body of a cron term (before any `/step`): `*`, a single
value, or an inclusive range `a-b`, bounded by the field's value range. -/
def parseBody (lo hi : Nat) (body : List Char) (step : Nat) : Option CronTerm :=
  if body = ['*'] then some ⟨lo, hi, step⟩
  else
    match splitOnChar '-' body with
    | [a] =>
      match parseNatChars a with
      | some v => if lo ≤ v ∧ v ≤ hi then some ⟨v, v, step⟩ else none
      | none => none
    | [a, b] =>
      match parseNatChars a, parseNatChars b with
      | some x, some y =>
        if lo ≤ x ∧ x ≤ y ∧ y ≤ hi then some ⟨x, y, step⟩ else none
      | _, _ => none
    | _ => none

/-- Parse one comma-separated term of a cron field, with optional `/step`. -/
def parseTerm (lo hi : Nat) (s : List Char) : Option CronTerm :=
  match splitOnChar '/' s with
  | [body] => parseBody lo hi body 1
  | [body, stepStr] =>
    match parseNatChars stepStr with
    | some k => if k = 0 then none else parseBody lo hi body k
    | none => none
  | _ => none

/-- Parse a whole cron field (a non-empty comma list of terms). -/
def parseField (lo hi : Nat) (s : List Char) : Option CronField :=
  match (splitOnChar ',' s).mapM (parseTerm lo hi) with
  | some ts => some ⟨s = ['*'], ts⟩
  | none => none

/-- A parsed 5-field cron expression. -/
structure CronSpec where
  minute : CronField
  hour : CronField
  dom : CronField
  month : CronField
  dow : CronField
deriving DecidableEq, Repr

/-- Parse a 5-field cron expression string; `none` when invalid. -/
def parseCron (s : String) : Option CronSpec :=
  match ((splitOnChar ' ' s.data).filter (fun t => t ≠ [])) with
  | [m, h, d, mo, w] => do
    let mf ← parseField 0 59 m
    let hf ← parseField 0 23 h
    let df ← parseField 1 31 d
    let mof ← parseField 1 12 mo
    let wf ← parseField 0 6 w
    some ⟨mf, hf, df, mof, wf⟩
  | _ => none

/-- Month lengths of the simplified non-leap calendar. -/
def monthLengths : List Nat := [31, 28, 31, 30, 31, 30, 31, 31, 30, 31, 30, 31]

/-- Convert a zero-based day-of-year into a one-based (month, day) pair. -/
def findMonth : List Nat → Nat → Nat → Nat × Nat
  | [], _, m => (m, 1)
  | len :: rest, d, m => if d < len then (m, d + 1) else findMonth rest (d - len) (m + 1)

/-- Decode an absolute minute count into
(minute, hour, day-of-month, month, day-of-week). -/
def timeFields (t : Nat) : Nat × Nat × Nat × Nat × Nat :=
  let minute := t % 60
  let hour := t / 60 % 24
  let days := t / 1440
  let doy := days % 365
  let md := findMonth monthLengths doy 1
  (minute, hour, md.2, md.1, (days + 4) % 7)

/-- Does a value satisfy some term of a cron field? -/
def matchesField (f : CronField) (v : Nat) : Bool :=
  f.terms.any (fun p => decide (p.lo ≤ v ∧ v ≤ p.hi ∧ (v - p.lo) % p.step = 0))

/-- Does an absolute minute satisfy a cron expression?  Minute, hour and
month are conjunctive; day-of-month and day-of-week follow the standard
rule: both conjunctive when either token is `*`, disjunctive otherwise. -/
def cronMatches (c : CronSpec) (t : Nat) : Bool :=
  let f := timeFields t
  matchesField c.minute f.1 && matchesField c.hour f.2.1 &&
  matchesField c.month f.2.2.2.1 &&
  (if c.dom.star || c.dow.star then
    matchesField c.dom f.2.2.1 && matchesField c.dow f.2.2.2.2
  else
    matchesField c.dom f.2.2.1 || matchesField c.dow f.2.2.2.2)

/-- Fuel-bounded linear scan for the first matching minute at or after `t`. -/
def searchNext (c : CronSpec) : Nat → Nat → Option Nat
  | 0, _ => none
  | fuel + 1, t => if cronMatches c t then some t else searchNext c fuel (t + 1)

/-- Next matching time strictly after `base` (bounded by one 366-day year of
minutes, matching croniter's bounded forward search). -/
def nextRunFrom (c : CronSpec) (base : Nat) : Option Nat :=
  searchNext c 527040 (base + 1)

/-- `croniter(expr, base).get_next(datetime)` as used by
`Job.calculate_next_run`: parse, then scan strictly forward. -/
def calcNextRun (expr : String) (base : Nat) : Option Nat :=
  (parseCron expr).bind (fun c => nextRunFrom c base)

/-!
## Job entity operations (`domain/entities/job.py`)

Each Python method mutating `self` becomes a function `Job → ... → Job`;
`datetime.utcnow()` defaults become the explicit `now` argument.
-/

/-- `Job.is_due`: active, has a `next_run`, and it has passed. -/
def Job.is_due (j : Job) (now : Nat) : Bool :=
  decide (j.status = JobStatus.active) &&
  (match j.next_run with
   | some t => decide (t ≤ now)
   | none => false)

/-- `Job.calculate_next_run`: recompute `next_run` from the cron expression
and a base time. -/
def Job.calculate_next_run (j : Job) (base : Nat) : Job :=
  { j with next_run := calcNextRun j.cron_expression base }

/-- `Job.mark_as_executed`. -/
def Job.mark_as_executed (j : Job) (execution_time : Nat) : Job :=
  ({ j with last_run := some execution_time,
            updated_at := execution_time } : Job).calculate_next_run execution_time

/-- `Job.pause`: only from `Active`. -/
def Job.pause (j : Job) (now : Nat) : Job :=
  if j.status = JobStatus.active then
    { j with status := JobStatus.paused, updated_at := now }
  else j

/-- `Job.resume`: only from `Paused`; recomputes `next_run` from `now`. -/
def Job.resume (j : Job) (now : Nat) : Job :=
  if j.status = JobStatus.paused then
    ({ j with status := JobStatus.active, updated_at := now } : Job).calculate_next_run now
  else j

/-- `Job.deactivate`: unconditional; clears `next_run`. -/
def Job.deactivate (j : Job) (now : Nat) : Job :=
  { j with status := JobStatus.inactive, updated_at := now, next_run := none }

/-- `Job.activate`: only from `Inactive` or `Paused`. -/
def Job.activate (j : Job) (now : Nat) : Job :=
  if j.status = JobStatus.inactive ∨ j.status = JobStatus.paused then
    ({ j with status := JobStatus.active, updated_at := now } : Job).calculate_next_run now
  else j

/-- `Job.soft_delete`: unconditional; clears `next_run`. -/
def Job.soft_delete (j : Job) (now : Nat) : Job :=
  { j with status := JobStatus.deleted, updated_at := now, next_run := none }

/-- `Job.add_tag`: append only when absent. -/
def Job.add_tag (j : Job) (tag : String) (now : Nat) : Job :=
  if tag ∈ j.tags then j
  else { j with tags := j.tags ++ [tag], updated_at := now }

/-- `Job.remove_tag`: remove the first occurrence when present. -/
def Job.remove_tag (j : Job) (tag : String) (now : Nat) : Job :=
  if tag ∈ j.tags then { j with tags := j.tags.erase tag, updated_at := now }
  else j

/-!
## JobExecution entity operations (`domain/entities/execution.py`)
-/

/-- `JobExecution.duration_seconds`: defined only when both endpoints are. -/
def JobExecution.duration_seconds (e : JobExecution) : Option Int :=
  match e.started_at, e.finished_at with
  | some s, some f => some ((f : Int) - (s : Int))
  | _, _ => none

/-- `JobExecution.is_completed`: any terminal status. -/
def JobExecution.is_completed (e : JobExecution) : Bool :=
  decide (e.status = ExecutionStatus.success ∨ e.status = ExecutionStatus.failed ∨
          e.status = ExecutionStatus.timeout ∨ e.status = ExecutionStatus.cancelled)

/-- `JobExecution.is_successful`. -/
def JobExecution.is_successful (e : JobExecution) : Bool :=
  decide (e.status = ExecutionStatus.success)

/-- `JobExecution.can_retry`: only `Failed` or `Timeout`. -/
def JobExecution.can_retry (e : JobExecution) : Bool :=
  decide (e.status = ExecutionStatus.failed ∨ e.status = ExecutionStatus.timeout)

/-- `JobExecution.start`: unconditionally sets `Running`. -/
def JobExecution.start (e : JobExecution) (start_time : Nat) : JobExecution :=
  { e with status := ExecutionStatus.running, started_at := some start_time }

/-- `JobExecution.complete_success`: unconditionally sets `Success`. -/
def JobExecution.complete_success (e : JobExecution) (exit_code : Int)
    (out : String) (finish_time : Nat) : JobExecution :=
  { e with status := ExecutionStatus.success, finished_at := some finish_time,
           exit_code := some exit_code, stdout := out }

/-- `JobExecution.complete_failure`: unconditionally sets `Failed`. -/
def JobExecution.complete_failure (e : JobExecution) (exit_code : Option Int)
    (err : String) (msg : String) (finish_time : Nat) : JobExecution :=
  { e with status := ExecutionStatus.failed, finished_at := some finish_time,
           exit_code := exit_code, stderr := err, error_message := msg }

/-- `JobExecution.timeout`: unconditionally sets `Timeout`. -/
def JobExecution.timeout (e : JobExecution) (msg : String)
    (finish_time : Nat) : JobExecution :=
  { e with status := ExecutionStatus.timeout, finished_at := some finish_time,
           error_message := msg }

/-- `JobExecution.cancel`: unconditionally sets `Cancelled`. -/
def JobExecution.cancel (e : JobExecution) (msg : String)
    (finish_time : Nat) : JobExecution :=
  { e with status := ExecutionStatus.cancelled, finished_at := some finish_time,
           error_message := msg }

/-- `JobExecution.prepare_retry`: guarded by `can_retry`; otherwise no-op. -/
def JobExecution.prepare_retry (e : JobExecution) : JobExecution :=
  if e.can_retry then
    { e with status := ExecutionStatus.retrying, retry_count := e.retry_count + 1,
             started_at := none, finished_at := none, exit_code := none }
  else e

/-!
## Domain service (`domain/services/job_service.py`)

`JobDomainService` methods become pure functions: the repository lookups
feeding a method become explicit arguments (the candidate list for
`get_jobs_due_for_execution`, the execution history for
`get_job_statistics`, a `nameTaken` oracle standing for
`job_repository.get_by_name` in `update_job`).
-/

/-- The optional keyword arguments of `JobDomainService.update_job`. -/
structure UpdateArgs where
  name : Option String
  cron_expression : Option String
  command : Option String
  description : Option String
  timeout_seconds : Option Int
  max_retries : Option Int
  retry_delay_seconds : Option Int
deriving DecidableEq, Repr

/-- The `ValueError` variants `update_job` can raise after the job was
fetched. -/
inductive UpdateError where
  | nameExists
  | invalidCron
  | timeoutNotPositive
  | maxRetriesNegative
  | retryDelayNegative
deriving DecidableEq, Repr

/-- A failing update raises carrying the in-memory entity state mutated so
far (Python raises leave the fetched object as already assigned). -/
abbrev UpdateResult := Except (UpdateError × Job) Job

/-- Name step of `update_job`: uniqueness check, then assignment. -/
def step_name (nameTaken : String → Bool) (name : Option String)
    (s : Job) : UpdateResult :=
  match name with
  | none => Except.ok s
  | some n =>
    if n = s.name then Except.ok s
    else if nameTaken n then Except.error (UpdateError.nameExists, s)
    else Except.ok { s with name := n }

/-- Cron step of `update_job`: the source assigns the new expression first,
then validates it, then recomputes `next_run`. -/
def step_cron (now : Nat) (cron : Option String) (s : Job) : UpdateResult :=
  match cron with
  | none => Except.ok s
  | some c =>
    let s1 := { s with cron_expression := c }
    if (parseCron c).isSome then Except.ok (s1.calculate_next_run now)
    else Except.error (UpdateError.invalidCron, s1)

/-- Command step of `update_job` (cannot fail). -/
def set_opt_command (cmd : Option String) (s : Job) : Job :=
  match cmd with
  | none => s
  | some c => { s with command := c }

/-- Description step of `update_job` (cannot fail). -/
def set_opt_description (d : Option String) (s : Job) : Job :=
  match d with
  | none => s
  | some v => { s with description := v }

/-- Timeout step of `update_job`: rejects non-positive values. -/
def step_timeout (t : Option Int) (s : Job) : UpdateResult :=
  match t with
  | none => Except.ok s
  | some v =>
    if v ≤ 0 then Except.error (UpdateError.timeoutNotPositive, s)
    else Except.ok { s with timeout_seconds := v }

/-- Max-retries step of `update_job`: rejects negative values. -/
def step_max_retries (m : Option Int) (s : Job) : UpdateResult :=
  match m with
  | none => Except.ok s
  | some v =>
    if v < 0 then Except.error (UpdateError.maxRetriesNegative, s)
    else Except.ok { s with max_retries := v }

/-- Retry-delay step of `update_job`: rejects negative values. -/
def step_retry_delay (d : Option Int) (s : Job) : UpdateResult :=
  match d with
  | none => Except.ok s
  | some v =>
    if v < 0 then Except.error (UpdateError.retryDelayNegative, s)
    else Except.ok { s with retry_delay_seconds := v }

/-- `JobDomainService.update_job` after the job was fetched: the field steps
in source order, finishing with the `updated_at` stamp; on success the
returned job is what `job_repository.update` persists, on error the carried
job is the in-memory entity at the raise. -/
def update_job (nameTaken : String → Bool) (job : Job) (a : UpdateArgs)
    (now : Nat) : UpdateResult :=
  (step_name nameTaken a.name job).bind (fun s1 =>
  (step_cron now a.cron_expression s1).bind (fun s2 =>
  (step_timeout a.timeout_seconds
      (set_opt_description a.description (set_opt_command a.command s2))).bind (fun s5 =>
  (step_max_retries a.max_retries s5).bind (fun s6 =>
  (step_retry_delay a.retry_delay_seconds s6).map (fun s7 =>
  { s7 with updated_at := now })))))

/-- Agreement of two job states on every field other than `name` and
`cron_expression` (the two fields `update_job` assigns before its cron
validation can fail). -/
abbrev UnchangedOutsideNameCron (s j : Job) : Prop :=
  s.command = j.command ∧ s.description = j.description ∧ s.status = j.status
  ∧ s.created_at = j.created_at ∧ s.updated_at = j.updated_at
  ∧ s.last_run = j.last_run ∧ s.next_run = j.next_run
  ∧ s.timeout_seconds = j.timeout_seconds ∧ s.max_retries = j.max_retries
  ∧ s.retry_delay_seconds = j.retry_delay_seconds
  ∧ s.environment_variables = j.environment_variables ∧ s.tags = j.tags
  ∧ s.id = j.id ∧ s.uuid = j.uuid

/-- `JobDomainService._is_job_eligible_for_execution`. -/
def is_job_eligible_for_execution (j : Job) (now : Nat) : Bool :=
  if j.status ≠ JobStatus.active then false
  else if ¬ j.is_due now then false
  else true

/-- `JobDomainService.get_jobs_due_for_execution` given the candidate list
returned by `job_repository.get_due_jobs`: keep the eligible ones in
repository order. -/
def get_jobs_due_for_execution (due_jobs : List Job) (now : Nat) : List Job :=
  due_jobs.filter (fun j => is_job_eligible_for_execution j now)

/-- `JobDomainService.should_retry_execution`. -/
def should_retry_execution (e : JobExecution) (j : Job) : Bool :=
  if (e.retry_count : Int) ≥ j.max_retries then false
  else if ¬ e.can_retry then false
  else if j.status ≠ JobStatus.active then false
  else true

/-- `JobDomainService.calculate_retry_time`: exponential backoff from the
job's base delay, capped at one hour. -/
def calculate_retry_time (e : JobExecution) (j : Job) (base : Nat) : Int :=
  let retry_delay : Int := j.retry_delay_seconds * (2 : Int) ^ e.retry_count
  let capped := min retry_delay 3600
  (base : Int) + capped

/-- Python `round` (banker's rounding: ties to the even integer),
on exact rationals. -/
def roundHalfEven (q : ℚ) : ℤ :=
  let f := ⌊q⌋
  let r := q - f
  if r < 1 / 2 then f
  else if 1 / 2 < r then f + 1
  else if f % 2 = 0 then f else f + 1

/-- Python `round(x, 2)`. -/
def round2 (q : ℚ) : ℚ :=
  (roundHalfEven (q * 100) : ℚ) / 100

/-- The statistics record built by `JobDomainService.get_job_statistics`
(the `last_execution` / `next_execution` echo fields are the job's own
timestamps and are kept as such). -/
structure JobStats where
  job_name : String
  job_status : JobStatus
  total_executions : Nat
  successful_executions : Nat
  failed_executions : Nat
  success_rate_percent : ℚ
  average_duration_seconds : ℚ
  last_execution : Option Nat
  next_execution : Option Nat
deriving DecidableEq, Repr

/-- The `successful_durations` list comprehension inside
`JobDomainService.get_job_statistics`: durations of successful executions
whose duration is defined. -/
def successfulDurations (executions : List JobExecution) : List ℚ :=
  executions.filterMap (fun e =>
    if e.is_successful then e.duration_seconds.map (fun d => (d : ℚ)) else none)

/-- `JobDomainService.get_job_statistics` given the fetched job and its
execution history. -/
def get_job_statistics (job : Job) (executions : List JobExecution) : JobStats :=
  let total := executions.length
  let succN := (executions.filter (fun e => e.status = ExecutionStatus.success)).length
  let failN := (executions.filter (fun e => e.status = ExecutionStatus.failed)).length
  let success_rate : ℚ := if total > 0 then (succN : ℚ) / (total : ℚ) * 100 else 0
  let durs : List ℚ := successfulDurations executions
  let avg : ℚ := if durs ≠ [] then durs.sum / (durs.length : ℚ) else 0
  { job_name := job.name
    job_status := job.status
    total_executions := total
    successful_executions := succN
    failed_executions := failN
    success_rate_percent := round2 success_rate
    average_duration_seconds := round2 avg
    last_execution := job.last_run
    next_execution := job.next_run }

/-!
## Concrete entities for witnesses and counterexamples
-/

/-- A representative active job (noon daily schedule, `next_run` = minute
720 as `calcNextRun "0 12 * * *" 0` computes). -/
def job0 : Job :=
  { name := "daily-backup"
    cron_expression := "0 12 * * *"
    command := "backup.sh"
    description := "nightly backup"
    status := JobStatus.active
    created_at := 0
    updated_at := 0
    last_run := none
    next_run := some 720
    timeout_seconds := 300
    max_retries := 3
    retry_delay_seconds := 60
    environment_variables := [("HOME", "/root")]
    tags := ["a"]
    id := some 1
    uuid := 11 }

/-- An every-minute job (used to exercise the cron scan cheaply). -/
def jobStar : Job :=
  { job0 with name := "star", cron_expression := "* * * * *", id := some 5 }

/-- A paused job, due by timestamp but ineligible by status. -/
def jobP : Job :=
  { job0 with name := "paused-job", status := JobStatus.paused,
              next_run := some 10, id := some 3 }

/-- Two active due jobs with equal `next_run` and ids out of ascending
order (a legal repository result: the SQL orders by `next_run` only). -/
def jobT2 : Job :=
  { job0 with name := "tie-two", next_run := some 0, id := some 2 }

/-- See `jobT2`: the smaller-id member of the tie. -/
def jobT1 : Job :=
  { job0 with name := "tie-one", next_run := some 0, id := some 1 }

/-- A job with `retry_delay_seconds = 0` (allowed: the spec and the update
validation only require the delay to be non-negative). -/
def jobZero : Job :=
  { job0 with name := "zero-delay", retry_delay_seconds := 0, id := some 4 }

/-- The durations entering the average of `get_job_statistics`, stated
independently of the implementation: first keep the successful executions,
then keep the defined durations, then view them as rationals. -/
def durationsOfSuccessful (executions : List JobExecution) : List ℚ :=
  ((executions.filter (fun e => e.is_successful)).filterMap
    (fun e => e.duration_seconds)).map (fun d => (d : ℚ))

/-- A job whose retry budget is exhausted immediately (`max_retries = 0`). -/
def jobMax0 : Job :=
  { job0 with name := "no-retries", max_retries := 0, id := some 6 }

/-- A successful execution with a 3-second duration. -/
def exSucc : JobExecution :=
  { job_id := some 1
    job_uuid := 11
    status := ExecutionStatus.success
    scheduled_time := 0
    started_at := some 0
    finished_at := some 3
    exit_code := some 0
    stdout := "ok"
    stderr := ""
    error_message := ""
    retry_count := 0
    environment_variables := []
    id := some 9
    uuid := 21 }

/-- A second successful execution, with a 4-second duration. -/
def exSucc4 : JobExecution :=
  { exSucc with finished_at := some 4, id := some 11 }

/-- A failed execution with `retry_count = 0`. -/
def exFail : JobExecution :=
  { exSucc with status := ExecutionStatus.failed, exit_code := some 1,
                stdout := "", error_message := "boom", id := some 10 }

/-- `exFail` after one retry (`retry_count = 1`). -/
def exFail1 : JobExecution :=
  { exFail with retry_count := 1, id := some 12 }

/-- Update arguments supplying only an invalid cron expression. -/
def argBadCron : UpdateArgs :=
  { name := none
    cron_expression := some "not a cron"
    command := none
    description := none
    timeout_seconds := none
    max_retries := none
    retry_delay_seconds := none }

/-- The in-memory state `update_job` leaves behind when the invalid cron
expression of `argBadCron` is rejected: the bad expression is already
assigned. -/
def jobAfterBadCron : Job :=
  { job0 with cron_expression := "not a cron" }

/-- Scenario D history: 10 executions, 7 successful and 3 failed. -/
def scenarioD : List JobExecution :=
  List.replicate 7 exSucc ++ List.replicate 3 exFail

/-!
## Claims
-/

/-- Claim C5: the retry time computed by `calculate_retry_time` equals
`base + min(retry_delay_seconds * 2 ^ retry_count, 3600)`, and the added
delay never exceeds 3600 seconds for any retry count. -/
theorem c5_retry_time_formula (e : JobExecution) (j : Job) (base : Nat) :
    calculate_retry_time e j base
      = (base : Int) + min (j.retry_delay_seconds * (2 : Int) ^ e.retry_count) 3600
    ∧ calculate_retry_time e j base - (base : Int) ≤ 3600 := by
  refine ⟨rfl, ?_⟩
  show (base : Int) + min (j.retry_delay_seconds * (2 : Int) ^ e.retry_count) 3600
      - (base : Int) ≤ 3600
  generalize j.retry_delay_seconds * (2 : Int) ^ e.retry_count = x
  omega

/-- Claim C7: `should_retry_execution` returns `false` exactly when the
retry budget is exhausted (`retry_count ≥ max_retries`), or the execution
status is not retryable (neither `Failed` nor `Timeout`), or the job is not
`Active`; in particular it is `false` as soon as `retry_count` reaches
`max_retries`. -/
theorem c7_should_retry_false_iff (e : JobExecution) (j : Job) :
    (should_retry_execution e j = false ↔
      (j.max_retries ≤ (e.retry_count : Int)
        ∨ (e.status ≠ ExecutionStatus.failed ∧ e.status ≠ ExecutionStatus.timeout)
        ∨ j.status ≠ JobStatus.active))
    ∧ ((e.retry_count : Int) = j.max_retries → should_retry_execution e j = false) := by
  have main : should_retry_execution e j = false ↔
      (j.max_retries ≤ (e.retry_count : Int)
        ∨ (e.status ≠ ExecutionStatus.failed ∧ e.status ≠ ExecutionStatus.timeout)
        ∨ j.status ≠ JobStatus.active) := by
    unfold should_retry_execution JobExecution.can_retry
    by_cases h1 : (e.retry_count : Int) ≥ j.max_retries <;>
    by_cases h2 : e.status = ExecutionStatus.failed ∨ e.status = ExecutionStatus.timeout <;>
    by_cases h3 : j.status = JobStatus.active <;>
    simp [h1, h2, h3] <;> tauto
  refine ⟨main, fun hEq => main.mpr (Or.inl (le_of_eq hEq.symm))⟩

/-- Witness for C7: the failed execution `exFail` (`retry_count = 0`)
against `jobMax0` (`max_retries = 0`) is not retried. -/
theorem c7_should_retry_false_iff_witness :
    should_retry_execution exFail jobMax0 = false :=
  (c7_should_retry_false_iff exFail jobMax0).2 (by decide)

/-- Claim C10: `add_tag` of a tag already present leaves the job entirely
unchanged (so `add_tag` is idempotent), and both `add_tag` and `remove_tag`
preserve duplicate-freedom of the tag list. -/
theorem c10_add_tag_idempotent (j : Job) (tag t2 : String) (now now2 : Nat)
    (h : tag ∈ j.tags) :
    j.add_tag tag now = j
    ∧ (j.tags.Nodup →
        (j.add_tag t2 now2).tags.Nodup ∧ (j.remove_tag t2 now2).tags.Nodup) := by
  constructor
  · simp [Job.add_tag, h]
  · intro hnd
    constructor
    · unfold Job.add_tag
      split
      · exact hnd
      · rename_i hmem
        simp [List.nodup_append, hnd, hmem]
    · unfold Job.remove_tag
      split
      · exact hnd.erase _
      · exact hnd

/-- Witness for C10 at `job0` (whose tag list is `["a"]`). -/
theorem c10_add_tag_idempotent_witness :
    job0.add_tag "a" 5 = job0 ∧ (job0.add_tag "b" 6).tags.Nodup := by
  have h := c10_add_tag_idempotent job0 "a" "b" 5 6 (by decide)
  exact ⟨h.1, (h.2 (by decide)).1⟩

/-- Claim C4 (amended): after `soft_delete` the status is `Deleted` and
`next_run` is cleared; `activate`, `pause` and `resume` are then no-ops and
`mark_as_executed` leaves the status `Deleted`, but `deactivate` is
unconditional and moves a `Deleted` job to `Inactive` — `Deleted` is not
terminal against `deactivate`. -/
theorem c4_soft_delete_transitions (j : Job) (now t : Nat) :
    (j.soft_delete now).status = JobStatus.deleted
    ∧ (j.soft_delete now).next_run = none
    ∧ (j.soft_delete now).activate t = j.soft_delete now
    ∧ (j.soft_delete now).pause t = j.soft_delete now
    ∧ (j.soft_delete now).resume t = j.soft_delete now
    ∧ ((j.soft_delete now).mark_as_executed t).status = JobStatus.deleted
    ∧ ((j.soft_delete now).deactivate t).status = JobStatus.inactive := by
  refine ⟨rfl, rfl, ?_, ?_, ?_, rfl, rfl⟩ <;>
    simp [Job.soft_delete, Job.activate, Job.pause, Job.resume]

/-- Counterexample to C4 as stated: `deactivate` on a soft-deleted job does
not leave the status `Deleted`. -/
theorem c4_counterexample :
    (job0.soft_delete 1).status = JobStatus.deleted
    ∧ ((job0.soft_delete 1).deactivate 2).status ≠ JobStatus.deleted := by
  decide

/-- Claim C3 (amended): only `prepare_retry` is guarded — it moves exactly
`Failed` and `Timeout` into `Retrying` and leaves `Success` and `Cancelled`
executions entirely unchanged; the remaining operations are unguarded and
overwrite any status, terminal included (`start` always sets `Running`,
`complete_success` always sets `Success`, and so on). -/
theorem c3_terminal_operations (e : JobExecution) (t : Nat) (ec : Int)
    (ec2 : Option Int) (out err msg : String) :
    (e.prepare_retry.status
       = if e.can_retry then ExecutionStatus.retrying else e.status)
    ∧ ((e.status = ExecutionStatus.success ∨ e.status = ExecutionStatus.cancelled)
        → e.prepare_retry = e)
    ∧ (e.start t).status = ExecutionStatus.running
    ∧ (e.complete_success ec out t).status = ExecutionStatus.success
    ∧ (e.complete_failure ec2 err msg t).status = ExecutionStatus.failed
    ∧ (e.timeout msg t).status = ExecutionStatus.timeout
    ∧ (e.cancel msg t).status = ExecutionStatus.cancelled := by
  refine ⟨?_, ?_, rfl, rfl, rfl, rfl, rfl⟩
  · cases hcr : e.can_retry <;> simp [JobExecution.prepare_retry, hcr]
  · intro h
    have hcr : e.can_retry = false := by
      rcases h with h | h <;> simp [JobExecution.can_retry, h]
    simp [JobExecution.prepare_retry, hcr]

/-- Witness for C3 (amended) at the successful execution `exSucc`. -/
theorem c3_terminal_operations_witness :
    exSucc.prepare_retry = exSucc :=
  (c3_terminal_operations exSucc 0 0 none "" "" "").2.1 (Or.inl (by decide))

/-- Counterexample to C3 as stated: `start` on a `Success` execution
changes its status (to `Running`). -/
theorem c3_counterexample :
    exSucc.status = ExecutionStatus.success
    ∧ (exSucc.start 5).status ≠ exSucc.status := by
  decide

/-- The fuel-bounded scan never returns a time before its starting point. -/
theorem searchNext_lower_bound (c : CronSpec) :
    ∀ fuel t t', searchNext c fuel t = some t' → t ≤ t' := by
  intro fuel
  induction fuel with
  | zero => intro t t' h; simp [searchNext] at h
  | succ n ih =>
    intro t t' h
    unfold searchNext at h
    split at h
    · cases h; exact Nat.le_refl t
    · exact Nat.le_of_succ_le (ih (t + 1) t' h)

/-- Claim C8: whenever `Job.calculate_next_run` produces a next-run time
from a base time, that time is strictly greater than the base — the cron
scan starts strictly after the base minute, so a job can never be
rescheduled at the base time itself. -/
theorem c8_next_run_strict (j : Job) (base t' : Nat)
    (h : (j.calculate_next_run base).next_run = some t') :
    base < t' := by
  unfold Job.calculate_next_run calcNextRun at h
  simp only at h
  rcases ho : parseCron j.cron_expression with _ | c
  · rw [ho] at h; simp [Option.bind] at h
  · rw [ho] at h
    simp only [Option.bind] at h
    have := searchNext_lower_bound c 527040 (base + 1) t' h
    omega

/-- Witness for C8: the every-minute job `jobStar` rescheduled from minute
0 fires at minute 1, strictly after the base. -/
theorem c8_next_run_strict_witness :
    (jobStar.calculate_next_run 0).next_run = some 1 ∧ 0 < 1 :=
  ⟨by decide, c8_next_run_strict jobStar 0 1 (by decide)⟩

/-- Eligibility in `get_jobs_due_for_execution` is exactly `Active` plus
`is_due`. -/
theorem eligible_iff (j : Job) (now : Nat) :
    is_job_eligible_for_execution j now = true ↔
      (j.status = JobStatus.active ∧ j.is_due now = true) := by
  unfold is_job_eligible_for_execution
  by_cases h1 : j.status = JobStatus.active <;>
  by_cases h2 : j.is_due now = true <;>
  simp [h1, h2]

/-- Claim C2 (amended): `get_jobs_due_for_execution` returns exactly the
candidates that are `Active` and `is_due`, in the candidates' own order
(it filters, never reorders); hence when the repository hands over its
`ORDER BY next_run ASC` result, the output stays sorted by `next_run` —
but ties are left in repository order, not broken by job id. -/
theorem c2_due_jobs (jobs : List Job) (now : Nat)
    (hs : jobs.Pairwise (fun a b => a.next_run.getD 0 ≤ b.next_run.getD 0)) :
    (∀ j, j ∈ get_jobs_due_for_execution jobs now ↔
        (j ∈ jobs ∧ j.status = JobStatus.active ∧ j.is_due now = true))
    ∧ (get_jobs_due_for_execution jobs now).Sublist jobs
    ∧ (get_jobs_due_for_execution jobs now).Pairwise
        (fun a b => a.next_run.getD 0 ≤ b.next_run.getD 0) := by
  refine ⟨?_, ?_, ?_⟩
  · intro j
    unfold get_jobs_due_for_execution
    rw [List.mem_filter]
    exact and_congr_right (fun _ => eligible_iff j now)
  · exact List.filter_sublist jobs
  · exact hs.sublist (List.filter_sublist jobs)

/-- Witness for C2 (amended) on the sorted candidate list `[jobP, job0]`:
the paused job is dropped and the active due job is kept. -/
theorem c2_due_jobs_witness :
    job0 ∈ get_jobs_due_for_execution [jobP, job0] 1000
    ∧ ¬ jobP ∈ get_jobs_due_for_execution [jobP, job0] 1000 := by
  have h := c2_due_jobs [jobP, job0] 1000 (by decide)
  refine ⟨(h.1 job0).mpr ⟨by decide, by decide, by decide⟩, fun hm => ?_⟩
  have := ((h.1 jobP).mp hm).2.1
  exact absurd this (by decide)

/-- Counterexample to C2 as stated: a repository result sorted by
`next_run` may hold a tie with ids out of ascending order; the service
keeps that order, so the output is not ordered by job id on ties. -/
theorem c2_counterexample :
    get_jobs_due_for_execution [jobT2, jobT1] 0 = [jobT2, jobT1]
    ∧ jobT2.next_run = jobT1.next_run
    ∧ jobT2.id = some 2 ∧ jobT1.id = some 1 := by
  decide

/-- Claim C6 (amended): for a strictly positive base delay, the backoff
delay of `calculate_retry_time` strictly increases with the retry count as
long as the larger raw delay stays within the 3600-second cap (for a zero
base delay the delay is constantly zero, so strictness needs
`retry_delay_seconds ≥ 1`). -/
theorem c6_backoff_monotone (j : Job) (e1 e2 : JobExecution) (base : Nat)
    (hd : 1 ≤ j.retry_delay_seconds)
    (h12 : e1.retry_count < e2.retry_count)
    (hcap : j.retry_delay_seconds * (2 : Int) ^ e2.retry_count ≤ 3600) :
    calculate_retry_time e1 j base < calculate_retry_time e2 j base := by
  have hp : (0 : Int) < j.retry_delay_seconds := by omega
  have hpow : (2 : Int) ^ e1.retry_count < (2 : Int) ^ e2.retry_count := by
    exact pow_lt_pow_right₀ (by norm_num) h12
  have hmul : j.retry_delay_seconds * (2 : Int) ^ e1.retry_count
      < j.retry_delay_seconds * (2 : Int) ^ e2.retry_count :=
    mul_lt_mul_of_pos_left hpow hp
  have hcap1 : j.retry_delay_seconds * (2 : Int) ^ e1.retry_count ≤ 3600 :=
    le_of_lt (lt_of_lt_of_le hmul hcap)
  show (base : Int) + min (j.retry_delay_seconds * (2 : Int) ^ e1.retry_count) 3600
      < (base : Int) + min (j.retry_delay_seconds * (2 : Int) ^ e2.retry_count) 3600
  rw [min_eq_left hcap1, min_eq_left hcap]
  omega

/-- Witness for C6 (amended): with `job0`'s 60-second base delay the first
two backoff delays are 60 and 120 seconds. -/
theorem c6_backoff_monotone_witness :
    calculate_retry_time exFail job0 0 < calculate_retry_time exFail1 job0 0 :=
  c6_backoff_monotone job0 exFail exFail1 0 (by decide) (by decide) (by decide)

/-- Counterexample to C6 as stated: with the allowed configuration
`retry_delay_seconds = 0` every delay is zero (well below the cap), so the
delay at a larger retry count is not strictly greater. -/
theorem c6_counterexample :
    exFail.retry_count < exFail1.retry_count
    ∧ calculate_retry_time exFail jobZero 0 - 0 < 3600
    ∧ calculate_retry_time exFail1 jobZero 0 - 0 < 3600
    ∧ ¬ calculate_retry_time exFail jobZero 0 < calculate_retry_time exFail1 jobZero 0 := by
  decide

/-- Python `round(0, 2)` is 0. -/
theorem round2_zero : round2 0 = 0 := by
  unfold round2 roundHalfEven
  norm_num

/-- The comprehension inside `get_job_statistics` collects exactly the
defined durations of the successful executions. -/
theorem successfulDurations_reformulation (exs : List JobExecution) :
    successfulDurations exs = durationsOfSuccessful exs := by
  unfold successfulDurations durationsOfSuccessful
  rw [List.filterMap_filter, List.map_filterMap]
  congr 1
  funext e
  cases hs : e.is_successful <;> simp [hs]

/-- Claim C9 (amended): `get_job_statistics` reports the total count, the
`Success` count and the `Failed` count of the history; its
`success_rate_percent` is `successful / total * 100` rounded to two decimal
places (banker's rounding), 0 for an empty history; its average duration is
the mean of the defined durations of the successful executions only,
rounded to two decimal places — 0 when no execution is successful, and
3.5 for the concrete history with successful durations 3 and 4; and on
Scenario D (7 successes out of 10) the reported rate is exactly 70. -/
theorem c9_statistics (job : Job) (exs : List JobExecution) :
    (get_job_statistics job exs).total_executions = exs.length
    ∧ (get_job_statistics job exs).successful_executions
        = exs.countP (fun e => decide (e.status = ExecutionStatus.success))
    ∧ (get_job_statistics job exs).failed_executions
        = exs.countP (fun e => decide (e.status = ExecutionStatus.failed))
    ∧ (get_job_statistics job exs).success_rate_percent
        = round2 (if exs.length > 0 then
            (exs.countP (fun e => decide (e.status = ExecutionStatus.success)) : ℚ)
              / (exs.length : ℚ) * 100
          else 0)
    ∧ (exs = [] → (get_job_statistics job exs).success_rate_percent = 0)
    ∧ ((∀ e ∈ exs, e.is_successful = false)
        → (get_job_statistics job exs).average_duration_seconds = 0)
    ∧ (get_job_statistics job exs).average_duration_seconds
        = round2 (if durationsOfSuccessful exs = [] then 0
            else (durationsOfSuccessful exs).sum
              / ((durationsOfSuccessful exs).length : ℚ))
    ∧ (get_job_statistics job0 [exSucc, exSucc4, exFail]).average_duration_seconds
        = 7 / 2
    ∧ (get_job_statistics job0 scenarioD).success_rate_percent = 70 := by
  refine ⟨rfl, ?_, ?_, ?_, ?_, ?_, ?_, ?_, ?_⟩
  · simp [get_job_statistics, List.countP_eq_length_filter]
  · simp [get_job_statistics, List.countP_eq_length_filter]
  · simp [get_job_statistics, List.countP_eq_length_filter]
  · intro h
    subst h
    simp [get_job_statistics, round2_zero]
  · intro h
    have hnil : successfulDurations exs = [] := by
      rw [successfulDurations, List.filterMap_eq_nil_iff]
      intro e he
      simp [h e he]
    simp [get_job_statistics, hnil, round2_zero]
  · rw [show (get_job_statistics job exs).average_duration_seconds
        = round2 (if successfulDurations exs ≠ [] then
            (successfulDurations exs).sum / ((successfulDurations exs).length : ℚ)
          else 0) from rfl,
      successfulDurations_reformulation]
    by_cases h : durationsOfSuccessful exs = [] <;> simp [h]
  · have hd : successfulDurations [exSucc, exSucc4, exFail] = [(3 : ℚ), 4] := by
      simp [successfulDurations, exSucc, exSucc4, exFail,
        JobExecution.is_successful, JobExecution.duration_seconds]
    have hne : ([(3 : ℚ), 4] : List ℚ) ≠ [] := by simp
    simp only [get_job_statistics]
    rw [hd, if_pos hne]
    norm_num [List.sum_cons]
    unfold round2 roundHalfEven
    norm_num
  · have hc : (scenarioD.filter
        (fun e => decide (e.status = ExecutionStatus.success))).length = 7 := by decide
    have hl : scenarioD.length = 10 := by decide
    simp only [get_job_statistics, hc, hl]
    norm_num
    unfold round2 roundHalfEven
    norm_num

/-- Witness for C9 (amended): a history with no successful execution
reports a zero average duration. -/
theorem c9_statistics_witness :
    (get_job_statistics job0 [exFail]).average_duration_seconds = 0 :=
  (c9_statistics job0 [exFail]).2.2.2.2.2.1 (by decide)

/-- Counterexample to C9 as stated: with 1 success out of 3 executions the
reported `success_rate_percent` is the two-decimal rounding 33.33, not the
exact `successful / total * 100 = 100/3`. -/
theorem c9_counterexample :
    (get_job_statistics job0 [exSucc, exFail, exFail]).total_executions = 3
    ∧ (get_job_statistics job0 [exSucc, exFail, exFail]).successful_executions = 1
    ∧ (get_job_statistics job0 [exSucc, exFail, exFail]).success_rate_percent
        ≠ (1 : ℚ) / 3 * 100 := by
  refine ⟨by decide, ?_, ?_⟩
  · have hc : (([exSucc, exFail, exFail] : List JobExecution).filter
        (fun e => decide (e.status = ExecutionStatus.success))).length = 1 := by decide
    simp [get_job_statistics, hc]
  · have hc : (([exSucc, exFail, exFail] : List JobExecution).filter
        (fun e => decide (e.status = ExecutionStatus.success))).length = 1 := by decide
    simp only [get_job_statistics, hc]
    norm_num
    unfold round2 roundHalfEven
    norm_num

/-- A job state agrees with itself outside `name` and `cron_expression`. -/
theorem unchanged_refl (j : Job) : UnchangedOutsideNameCron j j :=
  ⟨rfl, rfl, rfl, rfl, rfl, rfl, rfl, rfl, rfl, rfl, rfl, rfl, rfl, rfl⟩

/-- Renaming touches nothing outside `name`. -/
theorem unchanged_set_name (j : Job) (n : String) :
    UnchangedOutsideNameCron { j with name := n } j :=
  ⟨rfl, rfl, rfl, rfl, rfl, rfl, rfl, rfl, rfl, rfl, rfl, rfl, rfl, rfl⟩

/-- `Except.bind` on a successful step runs the continuation. -/
theorem updateResult_bind_ok (s : Job) (f : Job → UpdateResult) :
    (Except.ok s : UpdateResult).bind f = f s := rfl

/-- `Except.bind` on a failed step short-circuits. -/
theorem updateResult_bind_error (e : UpdateError × Job) (f : Job → UpdateResult) :
    (Except.error e : UpdateResult).bind f = Except.error e := rfl

/-- Claim C1 (amended): when the supplied cron expression is invalid (and
any supplied new name passes its uniqueness check), `update_job` fails with
the cron validation error and no updated job is produced for persistence;
every field of the in-memory entity other than `name` and `cron_expression`
— in particular `command`, `description`, `timeout_seconds`, `max_retries`,
`retry_delay_seconds`, `next_run` and `updated_at` — is left unchanged, but
the entity is not fully rolled back: it retains the invalid
`cron_expression` (the source assigns the new expression before validating
it). -/
theorem c1_invalid_cron_update (nameTaken : String → Bool) (job : Job)
    (a : UpdateArgs) (now : Nat) (c : String)
    (hc : a.cron_expression = some c) (hbad : parseCron c = none)
    (hname : ∀ n, a.name = some n → nameTaken n = false) :
    ∃ s, update_job nameTaken job a now = Except.error (UpdateError.invalidCron, s)
      ∧ s.cron_expression = c ∧ UnchangedOutsideNameCron s job := by
  have hstep : ∃ s1, step_name nameTaken a.name job = Except.ok s1
      ∧ UnchangedOutsideNameCron s1 job := by
    cases ha : a.name with
    | none => exact ⟨job, rfl, unchanged_refl job⟩
    | some n =>
      by_cases hn : n = job.name
      · refine ⟨job, ?_, unchanged_refl job⟩
        simp [step_name, hn]
      · refine ⟨{ job with name := n }, ?_, unchanged_set_name job n⟩
        simp [step_name, hn, hname n ha]
  obtain ⟨s1, h1, h1u⟩ := hstep
  have hcron : step_cron now (some c) s1
      = Except.error (UpdateError.invalidCron, { s1 with cron_expression := c }) := by
    have hsome : (parseCron c).isSome = false := by rw [hbad]; rfl
    simp [step_cron, hsome]
  refine ⟨{ s1 with cron_expression := c }, ?_, rfl, h1u⟩
  unfold update_job
  rw [h1, updateResult_bind_ok, hc, hcron, updateResult_bind_error]

/-- Witness for C1 (amended): updating `job0` with the unparsable
expression of `argBadCron` fails with the cron error, carrying a state that
kept every other field. -/
theorem c1_invalid_cron_update_witness :
    ∃ s, update_job (fun _ => false) job0 argBadCron 100
        = Except.error (UpdateError.invalidCron, s)
      ∧ s.cron_expression = "not a cron" ∧ UnchangedOutsideNameCron s job0 :=
  c1_invalid_cron_update (fun _ => false) job0 argBadCron 100 "not a cron"
    rfl (by decide) (fun n h => Option.noConfusion h)

/-- Counterexample to C1 as stated: the failed update does not leave the
entity unchanged in every field — the invalid cron expression has already
been assigned when the validation error is raised. -/
theorem c1_counterexample :
    update_job (fun _ => false) job0 argBadCron 100
      = Except.error (UpdateError.invalidCron, jobAfterBadCron)
    ∧ jobAfterBadCron.cron_expression ≠ job0.cron_expression := by
  exact ⟨rfl, by decide⟩
